import Mathlib

/-!
Shallow embedding of `src/websockets.rs` from the binance-rs-async repository.

The file models the websocket client module: the topic-name functions, the
`WebSocketConnection` transport variants, `handle_connect` / `connect` /
`connect_multiple`, `disconnect`, `process_message` and `event_loop`.

External effects are made explicit:
* network operations (`Socks5Stream::connect`, `client_async_tls`,
  `connect_async`, `WebSocketStream::close`) are oracles supplied as function
  parameters, and the calls actually performed are recorded in a `NetEvent`
  trace, in order;
* the serde decoder `from_str` and the user handler closure are function
  parameters;
* the `AtomicBool` cancellation flag is a list of the boolean values observed
  by the successive `running.load` polls;
* an inbound websocket stream is a list of `Except Error Message`, mirroring
  `socket.next()` yielding `Option<Result<Message, _>>` (an exhausted list is
  `next()` returning `None`);
* a Rust panic (an `unwrap()` on `None`) is a distinct outcome constructor,
  separate from returning an error.

Opaque external data (the underlying byte streams and the handshake
`Response`) are represented by `Nat` tokens: the module never inspects them,
it only stores and forwards them.
-/

deriving instance DecidableEq for Except

namespace Binance

/-- Error type of the crate as used by `websockets.rs`: `Error::Msg` and
`Error::UrlParserError` are constructed explicitly; `Json` and `Tungstenite`
stand for the `From` conversions the `?` operator applies to serde_json decode
errors and tungstenite transport errors. -/
inductive Error where
  | UrlParserError (e : String)
  | Msg (s : String)
  | Json (e : String)
  | Tungstenite (e : String)
deriving DecidableEq

/-- Close frame metadata carried by `Message::Close(Option<CloseFrame>)`.
The close code is opaque external data, kept as a token; the reason is the
textual payload. -/
structure CloseFrame where
  code : Nat
  reason : String
deriving DecidableEq

/-- Debug formatting of a `CloseFrame`, following the shape of the derived
Rust `Debug` output (the textual form of the close code is abstracted to the
token's decimal form). -/
def debugFmtCloseFrame (c : CloseFrame) : String :=
  "CloseFrame \x7b code: " ++ toString c.code ++ ", reason: \"" ++ c.reason ++
    "\" \x7d"

/-- Debug formatting of the `Option<CloseFrame>` payload, as interpolated by
the source's `format!("Disconnected {e:?}")`. -/
def debugFmtCloseOpt : Option CloseFrame → String
  | none => "None"
  | some c => "Some(" ++ debugFmtCloseFrame c ++ ")"

/-- The tungstenite `Message` frame type, as matched by `process_message`. -/
inductive Message where
  | Text (s : String)
  | Binary (b : List Nat)
  | Ping (b : List Nat)
  | Pong (b : List Nat)
  | Close (e : Option CloseFrame)
  | Frame (raw : Nat)
deriving DecidableEq

/-- The `WebSocketConnection` enum: `Direct` holds a plain / TLS websocket
stream and the handshake response, `Proxies` holds a SOCKS5-tunneled stream
and the handshake response. Streams and responses are opaque tokens. -/
inductive WebSocketConnection where
  | Direct (stream : Nat) (response : Nat)
  | Proxies (stream : Nat) (response : Nat)
deriving DecidableEq

/-- The mutable state of `WebSockets<WE>` relevant to the claims: the
`socket: Option<WebSocketConnection>` field. The handler closure and the
configuration are passed as explicit parameters where used. -/
structure WebSockets where
  socket : Option WebSocketConnection
deriving DecidableEq

/-- The fragment of `url::Url` that `handle_connect` consults: the full URL
text (forwarded to the handshake calls), `host_str()` and
`port_or_known_default()`. -/
structure Url where
  raw : String
  host : Option String
  port : Option Nat
deriving DecidableEq

/-- One performed network action, recorded in order of execution. -/
inductive NetEvent where
  | socks5Connect (proxyAddr host : String) (port : Nat)
  | tlsHandshake (url : String) (proxyStream : Nat)
  | directHandshake (url : String)
  | closeSocket (conn : WebSocketConnection)
deriving DecidableEq

/-- Results of the external network operations: `socks5 proxyAddr host port`
is `Socks5Stream::connect`, `clientAsyncTls url proxyStream` is
`client_async_tls`, `connectAsync url` is `connect_async`. Successes carry
the opaque stream / response tokens; failures carry the error's display
text. -/
structure NetOracle where
  socks5 : String → String → Nat → Except String Nat
  clientAsyncTls : String → Nat → Except String (Nat × Nat)
  connectAsync : String → Except String (Nat × Nat)

/-- Outcome of `handle_connect`: return `Ok(())`, return `Err(e)`, or panic
(the `unwrap()` calls on `url.host_str()` / `url.port_or_known_default()`). -/
inductive ConnectOutcome where
  | ok
  | error (e : Error)
  | panicked
deriving DecidableEq

/-- Embedding of `WebSockets::handle_connect`. `proxy` is the value of the
`WSS_PROXY` environment variable (`std::env::var` succeeding or not). The
result is the outcome, the post state, and the trace of network actions
performed, in order. Rust evaluates the arguments of `Socks5Stream::connect`
left to right, so the two `unwrap()`s panic before any tunnel attempt. -/
def handle_connect (net : NetOracle) (proxy : Option String) (url : Url)
    (st : WebSockets) : ConnectOutcome × WebSockets × List NetEvent :=
  match proxy with
  | some proxyAddr =>
    match url.host with
    | none => (.panicked, st, [])
    | some h =>
      match url.port with
      | none => (.panicked, st, [])
      | some p =>
        match net.socks5 proxyAddr h p with
        | .error e =>
            (.error (.Msg ("Error creating proxy stream: " ++ e)), st,
             [.socks5Connect proxyAddr h p])
        | .ok proxyStream =>
          match net.clientAsyncTls url.raw proxyStream with
          | .ok (stream, response) =>
              (.ok, { st with socket := some (.Proxies stream response) },
               [.socks5Connect proxyAddr h p, .tlsHandshake url.raw proxyStream])
          | .error e =>
              (.error (.Msg ("Error during handshake: " ++ e)), st,
               [.socks5Connect proxyAddr h p, .tlsHandshake url.raw proxyStream])
  | none =>
    match net.connectAsync url.raw with
    | .ok (stream, response) =>
        (.ok, { st with socket := some (.Direct stream response) },
         [.directHandshake url.raw])
    | .error e =>
        (.error (.Msg ("Error during handshake " ++ e)), st,
         [.directHandshake url.raw])

/-- The path constant `WS_ENDPOINT`. -/
def WS_ENDPOINT : String := "ws"

/-- The path constant `STREAM_ENDPOINT`. -/
def STREAM_ENDPOINT : String := "stream"

/-- Embedding of `WebSockets::connect`: format the target as
`{ws_endpoint}/ws/{endpoint}`, parse it (the external `Url::parse`, an
oracle), and delegate to `handle_connect`; a parse failure becomes
`Error::UrlParserError` via `?`. -/
def connect (parseUrl : String → Except String Url) (net : NetOracle)
    (proxy : Option String) (ws_endpoint endpoint : String) (st : WebSockets) :
    ConnectOutcome × WebSockets × List NetEvent :=
  match parseUrl (ws_endpoint ++ "/" ++ WS_ENDPOINT ++ "/" ++ endpoint) with
  | .error e => (.error (.UrlParserError e), st, [])
  | .ok url => handle_connect net proxy url st

/-- Embedding of `combined_stream`: Rust's `Vec::join("/")` is
`String.intercalate "/"`. -/
def combined_stream (streams : List String) : String :=
  String.intercalate "/" streams

/-- Embedding of `WebSockets::connect_multiple`: parse the base endpoint,
push the `stream` path segment (`path_segments_mut`, failing on
cannot-be-a-base URLs), set the `streams=` query from the combined topics,
and delegate to `handle_connect`. The two `url::Url` mutations are external
oracles. -/
def connect_multiple (parseUrl : String → Except String Url)
    (pushSegment : Url → String → Option Url) (setQuery : Url → String → Url)
    (net : NetOracle) (proxy : Option String) (ws_endpoint : String)
    (endpoints : List String) (st : WebSockets) :
    ConnectOutcome × WebSockets × List NetEvent :=
  match parseUrl ws_endpoint with
  | .error e => (.error (.UrlParserError e), st, [])
  | .ok url =>
    match pushSegment url STREAM_ENDPOINT with
    | none => (.error (.UrlParserError "RelativeUrlWithoutBase"), st, [])
    | some url2 =>
      handle_connect net proxy
        (setQuery url2 ("streams=" ++ combined_stream endpoints)) st

/-- Embedding of `WebSockets::disconnect`. `closeResult` is the outcome of
the external `socket.close(None)` call. The source closes the socket of
whichever variant is held but never assigns `self.socket = None`. -/
def disconnect (closeResult : WebSocketConnection → Except Error Unit)
    (st : WebSockets) : Except Error Unit × WebSockets × List NetEvent :=
  match st.socket with
  | some conn =>
    match closeResult conn with
    | .error e => (.error e, st, [.closeSocket conn])
    | .ok _ => (.ok (), st, [.closeSocket conn])
  | none => (.error (.Msg "Not able to close the connection"), st, [])

/-- Embedding of `WebSockets::process_message`. `decode` is serde_json's
`from_str` for the event type `WE`; `handler` is the user callback. Besides
the result, the list of events dispatched to the handler (here of length at
most one) is returned. -/
def process_message {WE : Type} (decode : String → Except String WE)
    (handler : WE → Except Error Unit) (message : Message) :
    Except Error Unit × List WE :=
  match message with
  | .Text msg =>
    if msg.isEmpty then (.ok (), [])
    else
      match decode msg with
      | .error e => (.error (.Json e), [])
      | .ok event =>
        match handler event with
        | .error e => (.error e, [event])
        | .ok _ => (.ok (), [event])
  | .Ping _ => (.ok (), [])
  | .Pong _ => (.ok (), [])
  | .Binary _ => (.ok (), [])
  | .Frame _ => (.ok (), [])
  | .Close e => (.error (.Msg ("Disconnected " ++ debugFmtCloseOpt e)), [])

/-- Observable output of a run of `event_loop`: `result` is `some r` when the
loop returned (`Ok(())` on a cleared flag, or the propagated error) and `none`
when the supplied list of flag polls was exhausted while the loop was still
running (the loop itself would keep running); `calls` lists the events
dispatched to the handler, in order; `rest` is the unread remainder of the
inbound stream. -/
structure LoopOutput (WE : Type) where
  result : Option (Except Error Unit)
  calls : List WE
  rest : List (Except Error Message)
deriving DecidableEq

/-- Embedding of `WebSockets::event_loop`. Each iteration first consumes one
poll of the `running` flag (`while running.load(..)`); a `false` poll exits
the loop returning `Ok(())`. Otherwise, if no socket is held the iteration
does nothing; if one is held, the head of `frames` is the value awaited from
`socket.next()` (an empty list is `next()` returning `None`, which skips the
body). A transport error or a `process_message` error is returned by `?`.
The `socket` field is only read, never written, by the loop. -/
def event_loop {WE : Type} (decode : String → Except String WE)
    (handler : WE → Except Error Unit) (socket : Option WebSocketConnection) :
    List Bool → List (Except Error Message) → LoopOutput WE
  | [], frames => ⟨none, [], frames⟩
  | false :: _, frames => ⟨some (.ok ()), [], frames⟩
  | true :: polls, frames =>
    match socket with
    | none => event_loop decode handler socket polls frames
    | some _ =>
      match frames with
      | [] => event_loop decode handler socket polls []
      | .error e :: rest => ⟨some (.error e), [], rest⟩
      | .ok m :: rest =>
        match process_message decode handler m with
        | (.error e, calls) => ⟨some (.error e), calls, rest⟩
        | (.ok _, calls) =>
          let out := event_loop decode handler socket polls rest
          ⟨out.result, calls ++ out.calls, out.rest⟩

/-- The constant topic name `all_ticker_stream`. -/
def all_ticker_stream : String := "!ticker@arr"

/-- Topic name `ticker_stream`. -/
def ticker_stream (symbol : String) : String := symbol ++ "@ticker"

/-- Topic name `agg_trade_stream`. -/
def agg_trade_stream (symbol : String) : String := symbol ++ "@aggTrade"

/-- Topic name `trade_stream`. -/
def trade_stream (symbol : String) : String := symbol ++ "@trade"

/-- Topic name `kline_stream`. -/
def kline_stream (symbol interval : String) : String :=
  symbol ++ "@kline_" ++ interval

/-- Topic name `book_ticker_stream`. -/
def book_ticker_stream (symbol : String) : String := symbol ++ "@bookTicker"

/-- The constant topic name `all_book_ticker_stream`. -/
def all_book_ticker_stream : String := "!bookTicker"

/-- The constant topic name `all_mini_ticker_stream`. -/
def all_mini_ticker_stream : String := "!miniTicker@arr"

/-- Topic name `mini_ticker_stream`. -/
def mini_ticker_stream (symbol : String) : String := symbol ++ "@miniTicker"

/-- Topic name `partial_book_depth_stream`. The `u16` parameters are kept as
naturals; Rust's `Display` for `u16` and `toString` on `Nat` agree on every
`u16` value. -/
def partial_book_depth_stream (symbol : String) (levels update_speed : Nat) :
    String :=
  symbol ++ "@depth" ++ toString levels ++ "@" ++ toString update_speed ++ "ms"

/-- Topic name `diff_book_depth_stream`. -/
def diff_book_depth_stream (symbol : String) (update_speed : Nat) : String :=
  symbol ++ "@depth@" ++ toString update_speed ++ "ms"

/-- Helper: the accumulator of `String.intercalate.go` factors out on the
left of the result. -/
theorem intercalate_go_pull (s : String) :
    ∀ (l : List String) (p a : String),
      String.intercalate.go (p ++ a) s l = p ++ String.intercalate.go a s l := by
  intro l
  induction l with
  | nil => intro p a; simp [String.intercalate.go]
  | cons b bs ih =>
    intro p a
    simp [String.intercalate.go]
    rw [String.append_assoc p a s, String.append_assoc p (a ++ s) b, ih,
      String.append_assoc a s b]

/-- C8: for every symbol string s, ticker_stream s is s followed by
"@ticker", and each other topic-name function appends its fixed suffix the
same way: agg_trade_stream appends "@aggTrade", trade_stream appends
"@trade", mini_ticker_stream appends "@miniTicker", book_ticker_stream
appends "@bookTicker", kline_stream s i appends "@kline_" and the interval,
partial_book_depth_stream s levels speed (for levels in 5, 10, 20 and speed
in 100, 1000) is s followed by "@depth", the level count, "@", the speed and
"ms", and diff_book_depth_stream s speed is s followed by "@depth@", the
speed and "ms". All are total Lean functions, hence pure and never
failing. -/
theorem topic_stream_suffixes (s i : String) (levels speed : Nat)
    (hl : levels = 5 ∨ levels = 10 ∨ levels = 20)
    (hs : speed = 100 ∨ speed = 1000) :
    ticker_stream s = s ++ "@ticker" ∧
    agg_trade_stream s = s ++ "@aggTrade" ∧
    trade_stream s = s ++ "@trade" ∧
    mini_ticker_stream s = s ++ "@miniTicker" ∧
    book_ticker_stream s = s ++ "@bookTicker" ∧
    kline_stream s i = s ++ "@kline_" ++ i ∧
    partial_book_depth_stream s levels speed =
      s ++ "@depth" ++ toString levels ++ "@" ++ toString speed ++ "ms" ∧
    diff_book_depth_stream s speed = s ++ "@depth@" ++ toString speed ++ "ms" :=
  ⟨rfl, rfl, rfl, rfl, rfl, rfl, rfl, rfl⟩

/-- C8 witness: the theorem instantiated at a concrete symbol, interval,
level count and speed. -/
theorem topic_stream_suffixes_witness :
    ticker_stream "btcusdt" = "btcusdt" ++ "@ticker" ∧
    agg_trade_stream "btcusdt" = "btcusdt" ++ "@aggTrade" ∧
    trade_stream "btcusdt" = "btcusdt" ++ "@trade" ∧
    mini_ticker_stream "btcusdt" = "btcusdt" ++ "@miniTicker" ∧
    book_ticker_stream "btcusdt" = "btcusdt" ++ "@bookTicker" ∧
    kline_stream "btcusdt" "1m" = "btcusdt" ++ "@kline_" ++ "1m" ∧
    partial_book_depth_stream "btcusdt" 5 100 =
      "btcusdt" ++ "@depth" ++ toString 5 ++ "@" ++ toString 100 ++ "ms" ∧
    diff_book_depth_stream "btcusdt" 100 =
      "btcusdt" ++ "@depth@" ++ toString 100 ++ "ms" :=
  topic_stream_suffixes "btcusdt" "1m" 5 100 (Or.inl rfl) (Or.inl rfl)

/-- C9: combined_stream joins its input topics with "/" in the given order:
the two-element example, the singleton case, the empty case, and the general
cons equation showing the order-preserving, duplication-preserving join. -/
theorem combined_stream_join :
    combined_stream ["a@ticker", "b@trade"] = "a@ticker/b@trade" ∧
    (∀ s, combined_stream [s] = s) ∧
    combined_stream [] = "" ∧
    (∀ x y l, combined_stream (x :: y :: l) =
      x ++ "/" ++ combined_stream (y :: l)) := by
  refine ⟨by decide, fun s => ?_, rfl, fun x y l => ?_⟩
  · simp [combined_stream, String.intercalate, String.intercalate.go]
  · simp [combined_stream, String.intercalate, String.intercalate.go]
    rw [intercalate_go_pull]

/-- A concrete decoder used to instantiate theorems: decodes the literal
string "7" to the event 7, rejects everything else. -/
def decodeW : String → Except String Nat :=
  fun s => if s = "7" then .ok 7 else .error "bad json"

/-- A concrete handler used to instantiate theorems: fails on the event 7,
succeeds otherwise. -/
def handlerW : Nat → Except Error Unit :=
  fun n => if n = 7 then .error (.Msg "handler says no") else .ok ()

/-- C6: processing an empty text frame invokes the handler zero times
(dispatches no event) and returns Ok, and the event loop continues running
after receiving one, with no handler call recorded for it. -/
theorem empty_text_frame_ignored {WE : Type} (decode : String → Except String WE)
    (handler : WE → Except Error Unit) (conn : WebSocketConnection)
    (polls : List Bool) (rest : List (Except Error Message)) :
    process_message decode handler (.Text "") = (.ok (), []) ∧
    event_loop decode handler (some conn) (true :: polls) (.ok (.Text "") :: rest) =
      event_loop decode handler (some conn) polls rest := by
  exact ⟨rfl, rfl⟩

/-- C5: a close frame received while the loop runs terminates it, for every
decoder and handler, with the "Disconnected" error interpolating the close
payload; when a payload is present its reason text occurs inside the error
message. Ping, pong, binary and raw frames are ignored and the loop
continues. -/
theorem close_frame_stops {WE : Type} (decode : String → Except String WE)
    (handler : WE → Except Error Unit) (conn : WebSocketConnection)
    (polls : List Bool) (rest : List (Except Error Message))
    (e : Option CloseFrame) (b : List Nat) (raw : Nat) :
    event_loop decode handler (some conn) (true :: polls) (.ok (.Close e) :: rest) =
      ⟨some (.error (.Msg ("Disconnected " ++ debugFmtCloseOpt e))), [], rest⟩ ∧
    (∀ cf, e = some cf →
      ∃ pre post, "Disconnected " ++ debugFmtCloseOpt e = pre ++ cf.reason ++ post) ∧
    event_loop decode handler (some conn) (true :: polls) (.ok (.Ping b) :: rest) =
      event_loop decode handler (some conn) polls rest ∧
    event_loop decode handler (some conn) (true :: polls) (.ok (.Pong b) :: rest) =
      event_loop decode handler (some conn) polls rest ∧
    event_loop decode handler (some conn) (true :: polls) (.ok (.Binary b) :: rest) =
      event_loop decode handler (some conn) polls rest ∧
    event_loop decode handler (some conn) (true :: polls) (.ok (.Frame raw) :: rest) =
      event_loop decode handler (some conn) polls rest := by
  refine ⟨by simp [event_loop, process_message], ?_,
    by simp [event_loop, process_message], by simp [event_loop, process_message],
    by simp [event_loop, process_message], by simp [event_loop, process_message]⟩
  rintro cf rfl
  refine ⟨"Disconnected " ++ ("Some(" ++ ("CloseFrame \x7b code: " ++
    toString cf.code ++ ", reason: \"")), "\" \x7d" ++ ")", ?_⟩
  simp [debugFmtCloseOpt, debugFmtCloseFrame, String.append_assoc]

/-- C5 witness: the theorem instantiated at the concrete decoder and handler,
with a concrete close frame carrying the payload "bye". -/
theorem close_frame_stops_witness :
    event_loop decodeW handlerW (some (.Direct 0 0)) [true]
        [.ok (.Close (some ⟨1000, "bye"⟩))] =
      ⟨some (.error (.Msg ("Disconnected " ++
        debugFmtCloseOpt (some ⟨1000, "bye"⟩)))), [], []⟩ ∧
    ∃ pre post, "Disconnected " ++ debugFmtCloseOpt (some ⟨1000, "bye"⟩) =
      pre ++ "bye" ++ post :=
  ⟨(close_frame_stops decodeW handlerW (.Direct 0 0) [] [] (some ⟨1000, "bye"⟩)
      [] 0).1,
   (close_frame_stops decodeW handlerW (.Direct 0 0) [] [] (some ⟨1000, "bye"⟩)
      [] 0).2.1 ⟨1000, "bye"⟩ rfl⟩

/-- C4: for a non-empty text frame, a decode failure stops the loop with the
decode error, the handler never having been invoked for it; a successful
decode followed by a handler failure stops the loop immediately with the
handler's error unchanged, the handler having been invoked exactly once and
no subsequent frame of the stream having been consumed. -/
theorem decode_or_handler_failure_stops {WE : Type}
    (decode : String → Except String WE) (handler : WE → Except Error Unit)
    (conn : WebSocketConnection) (polls : List Bool) (s : String)
    (rest : List (Except Error Message)) :
    (∀ e, s.isEmpty = false → decode s = .error e →
      event_loop decode handler (some conn) (true :: polls) (.ok (.Text s) :: rest) =
        ⟨some (.error (.Json e)), [], rest⟩) ∧
    (∀ ev e, s.isEmpty = false → decode s = .ok ev → handler ev = .error e →
      event_loop decode handler (some conn) (true :: polls) (.ok (.Text s) :: rest) =
        ⟨some (.error e), [ev], rest⟩) := by
  constructor
  · intro e hne hdec
    simp [event_loop, process_message, hne, hdec]
  · intro ev e hne hdec hh
    simp [event_loop, process_message, hne, hdec, hh]

/-- C4 witness: with the concrete decoder and handler, a frame that fails to
decode stops the loop with the decode error and zero handler calls, and a
frame decoding to the rejected event stops the loop with the handler's error
after exactly one call, leaving the remaining frame unread. -/
theorem decode_or_handler_failure_stops_witness :
    event_loop decodeW handlerW (some (.Direct 0 0)) [true, true]
        [.ok (.Text "x"), .ok (.Text "7")] =
      ⟨some (.error (.Json "bad json")), [], [.ok (.Text "7")]⟩ ∧
    event_loop decodeW handlerW (some (.Direct 0 0)) [true, true]
        [.ok (.Text "7"), .ok (.Text "x")] =
      ⟨some (.error (.Msg "handler says no")), [7], [.ok (.Text "x")]⟩ :=
  ⟨(decode_or_handler_failure_stops decodeW handlerW (.Direct 0 0) [true] "x"
      [.ok (.Text "7")]).1 "bad json" (by decide) (by decide),
   (decode_or_handler_failure_stops decodeW handlerW (.Direct 0 0) [true] "7"
      [.ok (.Text "x")]).2 7 (.Msg "handler says no") (by decide) (by decide)
      (by decide)⟩

/-- Helper: if every observed poll of the cancellation flag is true, the loop
never returns Ok: any returned result is an error (within the observed polls
it either errors out or is still running). -/
theorem event_loop_all_true_never_ok {WE : Type}
    (decode : String → Except String WE) (handler : WE → Except Error Unit)
    (socket : Option WebSocketConnection) :
    ∀ (polls : List Bool) (frames : List (Except Error Message)),
      (∀ b ∈ polls, b = true) →
      (event_loop decode handler socket polls frames).result ≠ some (.ok ()) := by
  intro polls
  induction polls with
  | nil => intro frames h; simp [event_loop]
  | cons b bs ih =>
    intro frames h
    have hb : b = true := h b (by simp)
    subst hb
    have hbs : ∀ x ∈ bs, x = true := fun x hx => h x (by simp [hx])
    match socket with
    | none => simpa [event_loop] using ih frames hbs
    | some conn =>
      match frames with
      | [] => simpa [event_loop] using ih [] hbs
      | .error e :: rest => simp [event_loop]
      | .ok m :: rest =>
        rcases hpm : process_message decode handler m with ⟨r, calls⟩
        cases r with
        | error e => simp [event_loop, hpm]
        | ok u => simpa [event_loop, hpm] using ih rest hbs

/-- C7: each iteration consumes exactly one poll of the cancellation flag
before anything else; a poll observing false exits immediately returning Ok,
with no frame consumed and no handler call, so cancellation is only observed
between frames; exhausting the polls mid-run returns no result (the loop is
still running, never having awaited past the observed polls); an iteration
with no connection held is a no-op continuing the loop; and when every
observed poll is true the loop never returns Ok, so the flag-driven stop is
the only non-error exit. -/
theorem cancellation_flag_semantics {WE : Type}
    (decode : String → Except String WE) (handler : WE → Except Error Unit)
    (socket : Option WebSocketConnection) (polls : List Bool)
    (frames : List (Except Error Message)) :
    event_loop decode handler socket (false :: polls) frames =
      ⟨some (.ok ()), [], frames⟩ ∧
    event_loop decode handler socket [] frames = ⟨none, [], frames⟩ ∧
    event_loop decode handler none (true :: polls) frames =
      event_loop decode handler none polls frames ∧
    ((∀ b ∈ polls, b = true) →
      (event_loop decode handler socket polls frames).result ≠ some (.ok ())) :=
  ⟨rfl, rfl, rfl, event_loop_all_true_never_ok decode handler socket polls frames⟩

/-- C7 witness: the theorem instantiated at the concrete decoder and handler,
with one pending frame and an all-true poll list. -/
theorem cancellation_flag_semantics_witness :
    event_loop decodeW handlerW (some (.Direct 0 0)) [false] [.ok (.Text "7")] =
      ⟨some (.ok ()), [], [.ok (.Text "7")]⟩ ∧
    event_loop decodeW handlerW none [true] [.ok (.Text "7")] =
      event_loop decodeW handlerW none [] [.ok (.Text "7")] ∧
    (event_loop decodeW handlerW (some (.Direct 0 0)) [true] []).result ≠
      some (.ok ()) :=
  ⟨(cancellation_flag_semantics decodeW handlerW (some (.Direct 0 0)) []
      [.ok (.Text "7")]).1,
   (cancellation_flag_semantics decodeW handlerW none [] [.ok (.Text "7")]).2.2.1,
   (cancellation_flag_semantics decodeW handlerW (some (.Direct 0 0)) [true]
      []).2.2.2 (by decide)⟩

/-- A concrete network oracle whose operations all succeed, for instantiating
theorems at concrete inputs. -/
def netOk : NetOracle :=
  ⟨fun _ _ _ => .ok 0, fun _ _ => .ok (1, 2), fun _ => .ok (3, 4)⟩

/-- A concrete network oracle whose SOCKS5 tunnel is refused while the
handshake operations succeed. -/
def netTunnelRefused : NetOracle :=
  ⟨fun _ _ _ => .error "connection refused", fun _ _ => .ok (1, 2),
   fun _ => .ok (3, 4)⟩

/-- C1 counterexample: a client holding a Direct connection whose close call
succeeds. After disconnect the socket field is still populated, not returned
to the absent state, and an immediately subsequent disconnect returns Ok
rather than failing with the not-connected error. -/
theorem disconnect_does_not_clear_socket :
    (disconnect (fun _ => .ok ()) ⟨some (.Direct 0 0)⟩).2.1.socket ≠ none ∧
    (disconnect (fun _ => .ok ())
        (disconnect (fun _ => .ok ()) ⟨some (.Direct 0 0)⟩).2.1).1 = .ok () := by
  decide

/-- C1 (amended): disconnect on a client with no active connection returns
the not-connected error without touching any socket. Disconnect on a client
holding a connection requests a close of the underlying socket and returns
the close call's result, but leaves the socket field unchanged (still
holding the connection), so an immediately subsequent disconnect does not
fail with a not-connected error; it attempts another close instead. -/
theorem disconnect_semantics (closeResult : WebSocketConnection → Except Error Unit)
    (st : WebSockets) :
    (st.socket = none →
      disconnect closeResult st =
        (.error (.Msg "Not able to close the connection"), st, [])) ∧
    (∀ conn, st.socket = some conn →
      disconnect closeResult st = (closeResult conn, st, [.closeSocket conn])) := by
  constructor
  · intro h
    simp [disconnect, h]
  · intro conn h
    cases hc : closeResult conn with
    | error e => simp [disconnect, h, hc]
    | ok u => simp [disconnect, h, hc]

/-- C1 witness: the amended theorem instantiated at an empty client and at a
client holding a Proxies connection whose close succeeds. -/
theorem disconnect_semantics_witness :
    disconnect (fun _ => .ok ()) ⟨none⟩ =
      (.error (.Msg "Not able to close the connection"), ⟨none⟩, []) ∧
    disconnect (fun _ => .ok ()) ⟨some (.Proxies 1 2)⟩ =
      (.ok (), ⟨some (.Proxies 1 2)⟩, [.closeSocket (.Proxies 1 2)]) :=
  ⟨(disconnect_semantics (fun _ => .ok ()) ⟨none⟩).1 rfl,
   (disconnect_semantics (fun _ => .ok ()) ⟨some (.Proxies 1 2)⟩).2
      (.Proxies 1 2) rfl⟩

/-- C2 counterexample: with a proxy configured, handle_connect does not
return an error for every URL: on a URL with no host, or one with a host but
no resolvable default port, the embedded unwrap panics before any network
action. -/
theorem handle_connect_panics_without_host :
    (handle_connect netOk (some "127.0.0.1:1080")
        ⟨"foo:/ws/btcusdt@ticker", none, none⟩ ⟨none⟩).1 = .panicked ∧
    (handle_connect netOk (some "127.0.0.1:1080")
        ⟨"foo://example.com/ws/x", some "example.com", none⟩ ⟨none⟩).1 =
      .panicked := by
  decide

/-- C2 (amended): failures are returned to the caller as typed errors and
not suppressed: a transport read error stops the event loop and is returned
unchanged; a close failure in disconnect is returned unchanged; and
handle_connect never panics when no proxy is configured or when the URL has
both a host and a resolvable port; the unwrap panic is confined to the proxy
path on URLs lacking a host or a port. -/
theorem failures_propagated_as_errors {WE : Type}
    (decode : String → Except String WE) (handler : WE → Except Error Unit)
    (conn : WebSocketConnection) (polls : List Bool) (e : Error)
    (rest : List (Except Error Message)) (net : NetOracle)
    (proxy : Option String) (url : Url) (st : WebSockets)
    (closeResult : WebSocketConnection → Except Error Unit) :
    event_loop decode handler (some conn) (true :: polls) (.error e :: rest) =
      ⟨some (.error e), [], rest⟩ ∧
    (∀ c, st.socket = some c → closeResult c = .error e →
      (disconnect closeResult st).1 = .error e) ∧
    (proxy = none ∨ (url.host ≠ none ∧ url.port ≠ none) →
      (handle_connect net proxy url st).1 ≠ .panicked) := by
  refine ⟨rfl, ?_, ?_⟩
  · intro c hs hc
    simp [disconnect, hs, hc]
  · intro hp
    cases hproxy : proxy with
    | none =>
      cases hc : net.connectAsync url.raw with
      | ok v => obtain ⟨s, r⟩ := v; simp [handle_connect, hc]
      | error e2 => simp [handle_connect, hc]
    | some pa =>
      rcases hp with hp | ⟨hh, hpt⟩
      · rw [hproxy] at hp; exact Option.noConfusion hp
      · obtain ⟨h, hhost⟩ := Option.ne_none_iff_exists'.mp hh
        obtain ⟨p, hport⟩ := Option.ne_none_iff_exists'.mp hpt
        cases hsk : net.socks5 pa h p with
        | error e2 => simp [handle_connect, hhost, hport, hsk]
        | ok ps =>
          cases htls : net.clientAsyncTls url.raw ps with
          | ok v => obtain ⟨s, r⟩ := v; simp [handle_connect, hhost, hport, hsk, htls]
          | error e2 => simp [handle_connect, hhost, hport, hsk, htls]

/-- C2 witness: the amended theorem instantiated with the concrete decoder
and handler, a failing close, and the all-succeeding oracle on a fully
resolved URL behind a proxy. -/
theorem failures_propagated_as_errors_witness :
    event_loop decodeW handlerW (some (.Direct 0 0)) [true]
        [.error (.Tungstenite "io")] =
      ⟨some (.error (.Tungstenite "io")), [], []⟩ ∧
    (disconnect (fun _ => .error (.Tungstenite "io")) ⟨some (.Direct 0 0)⟩).1 =
      .error (.Tungstenite "io") ∧
    (handle_connect netOk (some "127.0.0.1:1080")
        ⟨"wss://example.com/ws/x", some "example.com", some 443⟩ ⟨none⟩).1 ≠
      .panicked :=
  ⟨(failures_propagated_as_errors decodeW handlerW (.Direct 0 0) []
      (.Tungstenite "io") [] netOk (some "127.0.0.1:1080")
      ⟨"wss://example.com/ws/x", some "example.com", some 443⟩
      ⟨some (.Direct 0 0)⟩ (fun _ => .error (.Tungstenite "io"))).1,
   (failures_propagated_as_errors decodeW handlerW (.Direct 0 0) []
      (.Tungstenite "io") [] netOk (some "127.0.0.1:1080")
      ⟨"wss://example.com/ws/x", some "example.com", some 443⟩
      ⟨some (.Direct 0 0)⟩ (fun _ => .error (.Tungstenite "io"))).2.1
      (.Direct 0 0) rfl rfl,
   (failures_propagated_as_errors decodeW handlerW (.Direct 0 0) []
      (.Tungstenite "io") [] netOk (some "127.0.0.1:1080")
      ⟨"wss://example.com/ws/x", some "example.com", some 443⟩
      ⟨some (.Direct 0 0)⟩ (fun _ => .error (.Tungstenite "io"))).2.2
      (Or.inr ⟨by simp, by simp⟩)⟩

/-- C3: connect and connect_multiple delegate to handle_connect after
building the URL. With a proxy configured, the SOCKS5 tunnel is attempted
first: on tunnel failure the trace holds exactly the tunnel attempt, no
handshake having been performed; on tunnel success the TLS/WebSocket
handshake is performed over the tunneled stream, the trace being the tunnel
attempt followed by the handshake; on handshake success the Proxies variant
holding the handshake's stream and response is stored. With no proxy, the
handshake is attempted directly against the URL and on success the Direct
variant is stored. -/
theorem proxy_selects_transport (net : NetOracle) (proxyAddr h : String)
    (p ps s r : Nat) (url : Url) (st : WebSockets)
    (parseUrl : String → Except String Url)
    (pushSegment : Url → String → Option Url) (setQuery : Url → String → Url)
    (proxy : Option String) (ws_endpoint endpoint : String)
    (endpoints : List String) :
    (∀ e, url.host = some h → url.port = some p →
      net.socks5 proxyAddr h p = .error e →
      handle_connect net (some proxyAddr) url st =
        (.error (.Msg ("Error creating proxy stream: " ++ e)), st,
         [.socks5Connect proxyAddr h p])) ∧
    (url.host = some h → url.port = some p →
      net.socks5 proxyAddr h p = .ok ps →
      net.clientAsyncTls url.raw ps = .ok (s, r) →
      handle_connect net (some proxyAddr) url st =
        (.ok, ⟨some (.Proxies s r)⟩,
         [.socks5Connect proxyAddr h p, .tlsHandshake url.raw ps])) ∧
    (net.connectAsync url.raw = .ok (s, r) →
      handle_connect net none url st =
        (.ok, ⟨some (.Direct s r)⟩, [.directHandshake url.raw])) ∧
    (∀ u, parseUrl (ws_endpoint ++ "/" ++ WS_ENDPOINT ++ "/" ++ endpoint) = .ok u →
      connect parseUrl net proxy ws_endpoint endpoint st =
        handle_connect net proxy u st) ∧
    (∀ u u2, parseUrl ws_endpoint = .ok u →
      pushSegment u STREAM_ENDPOINT = some u2 →
      connect_multiple parseUrl pushSegment setQuery net proxy ws_endpoint
          endpoints st =
        handle_connect net proxy
          (setQuery u2 ("streams=" ++ combined_stream endpoints)) st) := by
  refine ⟨?_, ?_, ?_, ?_, ?_⟩
  · intro e hh hp hsk
    simp [handle_connect, hh, hp, hsk]
  · intro hh hp hsk htls
    simp [handle_connect, hh, hp, hsk, htls]
  · intro hc
    simp [handle_connect, hc]
  · intro u hu
    simp [connect, hu]
  · intro u u2 hu hpush
    simp [connect_multiple, hu, hpush]

/-- C3 witness: the theorem instantiated with the refused-tunnel oracle and
the all-succeeding oracle at a concrete URL, plus concrete URL-building
oracles for the two entry points. -/
theorem proxy_selects_transport_witness :
    handle_connect netTunnelRefused (some "127.0.0.1:1080")
        ⟨"wss://example.com/ws/x", some "example.com", some 443⟩ ⟨none⟩ =
      (.error (.Msg ("Error creating proxy stream: " ++ "connection refused")),
       ⟨none⟩, [.socks5Connect "127.0.0.1:1080" "example.com" 443]) ∧
    handle_connect netOk (some "127.0.0.1:1080")
        ⟨"wss://example.com/ws/x", some "example.com", some 443⟩ ⟨none⟩ =
      (.ok, ⟨some (.Proxies 1 2)⟩,
       [.socks5Connect "127.0.0.1:1080" "example.com" 443,
        .tlsHandshake "wss://example.com/ws/x" 0]) ∧
    handle_connect netOk none
        ⟨"wss://example.com/ws/x", some "example.com", some 443⟩ ⟨none⟩ =
      (.ok, ⟨some (.Direct 3 4)⟩, [.directHandshake "wss://example.com/ws/x"]) ∧
    connect (fun raw => .ok ⟨raw, some "example.com", some 443⟩) netOk none
        "wss://example.com" "btcusdt@ticker" ⟨none⟩ =
      handle_connect netOk none
        ⟨"wss://example.com" ++ "/" ++ WS_ENDPOINT ++ "/" ++ "btcusdt@ticker",
         some "example.com", some 443⟩ ⟨none⟩ ∧
    connect_multiple (fun raw => .ok ⟨raw, some "example.com", some 443⟩)
        (fun u seg => some ⟨u.raw ++ "/" ++ seg, u.host, u.port⟩)
        (fun u q => ⟨u.raw ++ "?" ++ q, u.host, u.port⟩) netOk none
        "wss://example.com" ["a@ticker", "b@trade"] ⟨none⟩ =
      handle_connect netOk none
        ⟨"wss://example.com" ++ "/" ++ STREAM_ENDPOINT ++ "?" ++
          ("streams=" ++ combined_stream ["a@ticker", "b@trade"]),
         some "example.com", some 443⟩ ⟨none⟩ :=
  ⟨(proxy_selects_transport netTunnelRefused "127.0.0.1:1080" "example.com"
      443 0 1 2 ⟨"wss://example.com/ws/x", some "example.com", some 443⟩ ⟨none⟩
      (fun raw => .ok ⟨raw, some "example.com", some 443⟩)
      (fun u seg => some ⟨u.raw ++ "/" ++ seg, u.host, u.port⟩)
      (fun u q => ⟨u.raw ++ "?" ++ q, u.host, u.port⟩) none "wss://example.com"
      "btcusdt@ticker" ["a@ticker", "b@trade"]).1 "connection refused" rfl rfl
      rfl,
   (proxy_selects_transport netOk "127.0.0.1:1080" "example.com" 443 0 1 2
      ⟨"wss://example.com/ws/x", some "example.com", some 443⟩ ⟨none⟩
      (fun raw => .ok ⟨raw, some "example.com", some 443⟩)
      (fun u seg => some ⟨u.raw ++ "/" ++ seg, u.host, u.port⟩)
      (fun u q => ⟨u.raw ++ "?" ++ q, u.host, u.port⟩) none "wss://example.com"
      "btcusdt@ticker" ["a@ticker", "b@trade"]).2.1 rfl rfl rfl rfl,
   (proxy_selects_transport netOk "127.0.0.1:1080" "example.com" 443 0 3 4
      ⟨"wss://example.com/ws/x", some "example.com", some 443⟩ ⟨none⟩
      (fun raw => .ok ⟨raw, some "example.com", some 443⟩)
      (fun u seg => some ⟨u.raw ++ "/" ++ seg, u.host, u.port⟩)
      (fun u q => ⟨u.raw ++ "?" ++ q, u.host, u.port⟩) none "wss://example.com"
      "btcusdt@ticker" ["a@ticker", "b@trade"]).2.2.1 rfl,
   (proxy_selects_transport netOk "127.0.0.1:1080" "example.com" 443 0 3 4
      ⟨"wss://example.com/ws/x", some "example.com", some 443⟩ ⟨none⟩
      (fun raw => .ok ⟨raw, some "example.com", some 443⟩)
      (fun u seg => some ⟨u.raw ++ "/" ++ seg, u.host, u.port⟩)
      (fun u q => ⟨u.raw ++ "?" ++ q, u.host, u.port⟩) none "wss://example.com"
      "btcusdt@ticker" ["a@ticker", "b@trade"]).2.2.2.1
      ⟨"wss://example.com" ++ "/" ++ WS_ENDPOINT ++ "/" ++ "btcusdt@ticker",
       some "example.com", some 443⟩ rfl,
   (proxy_selects_transport netOk "127.0.0.1:1080" "example.com" 443 0 3 4
      ⟨"wss://example.com/ws/x", some "example.com", some 443⟩ ⟨none⟩
      (fun raw => .ok ⟨raw, some "example.com", some 443⟩)
      (fun u seg => some ⟨u.raw ++ "/" ++ seg, u.host, u.port⟩)
      (fun u q => ⟨u.raw ++ "?" ++ q, u.host, u.port⟩) none "wss://example.com"
      "btcusdt@ticker" ["a@ticker", "b@trade"]).2.2.2.2
      ⟨"wss://example.com", some "example.com", some 443⟩
      ⟨"wss://example.com" ++ "/" ++ STREAM_ENDPOINT, some "example.com",
       some 443⟩ rfl rfl⟩

/-- C10: when handle_connect returns an error the socket field is left
unchanged, so a previously held connection is retained; when it returns Ok
the socket field holds some connection, and that connection is exactly the
newly established one determined by the oracle results alone, irrespective
of the prior state st, which is overwritten: a direct success stores exactly
the Direct variant of the handshake's stream and response, a proxied success
stores exactly the Proxies variant of them, for every prior state including
one already holding a connection; and no network action handle_connect
performs is ever a close, so the previously held connection is not closed. -/
theorem handle_connect_frame_effect (net : NetOracle) (proxy : Option String)
    (url : Url) (st : WebSockets) :
    (∀ e, (handle_connect net proxy url st).1 = .error e →
      (handle_connect net proxy url st).2.1 = st) ∧
    ((handle_connect net proxy url st).1 = .ok →
      ∃ c, (handle_connect net proxy url st).2.1.socket = some c) ∧
    (∀ s r, net.connectAsync url.raw = .ok (s, r) →
      (handle_connect net none url st).2.1 = ⟨some (.Direct s r)⟩) ∧
    (∀ pa h p ps s r, url.host = some h → url.port = some p →
      net.socks5 pa h p = .ok ps → net.clientAsyncTls url.raw ps = .ok (s, r) →
      (handle_connect net (some pa) url st).2.1 = ⟨some (.Proxies s r)⟩) ∧
    (∀ ev ∈ (handle_connect net proxy url st).2.2, ∀ c, ev ≠ .closeSocket c) := by
  have hdirect : ∀ s r, net.connectAsync url.raw = .ok (s, r) →
      (handle_connect net none url st).2.1 = ⟨some (.Direct s r)⟩ := by
    intro s r hc
    simp [handle_connect, hc]
  have hproxied : ∀ pa h p ps s r, url.host = some h → url.port = some p →
      net.socks5 pa h p = .ok ps → net.clientAsyncTls url.raw ps = .ok (s, r) →
      (handle_connect net (some pa) url st).2.1 = ⟨some (.Proxies s r)⟩ := by
    intro pa h p ps s r hh hp hsk htls
    simp [handle_connect, hh, hp, hsk, htls]
  have main : (∀ e, (handle_connect net proxy url st).1 = .error e →
      (handle_connect net proxy url st).2.1 = st) ∧
      ((handle_connect net proxy url st).1 = .ok →
        ∃ c, (handle_connect net proxy url st).2.1.socket = some c) ∧
      (∀ ev ∈ (handle_connect net proxy url st).2.2, ∀ c,
        ev ≠ .closeSocket c) := by
    cases proxy with
    | none =>
      cases hc : net.connectAsync url.raw with
      | ok v =>
        obtain ⟨s, r⟩ := v
        exact ⟨fun e he => by simp [handle_connect, hc] at he,
          fun _ => ⟨.Direct s r, by simp [handle_connect, hc]⟩,
          by simp [handle_connect, hc]⟩
      | error e2 =>
        exact ⟨fun e he => by simp [handle_connect, hc],
          fun ho => by simp [handle_connect, hc] at ho,
          by simp [handle_connect, hc]⟩
    | some pa =>
      cases hhost : url.host with
      | none =>
        exact ⟨fun e he => by simp [handle_connect, hhost] at he,
          fun ho => by simp [handle_connect, hhost] at ho,
          by simp [handle_connect, hhost]⟩
      | some h =>
        cases hport : url.port with
        | none =>
          exact ⟨fun e he => by simp [handle_connect, hhost, hport] at he,
            fun ho => by simp [handle_connect, hhost, hport] at ho,
            by simp [handle_connect, hhost, hport]⟩
        | some p =>
          cases hsk : net.socks5 pa h p with
          | error e2 =>
            exact ⟨fun e he => by simp [handle_connect, hhost, hport, hsk],
              fun ho => by simp [handle_connect, hhost, hport, hsk] at ho,
              by simp [handle_connect, hhost, hport, hsk]⟩
          | ok ps =>
            cases htls : net.clientAsyncTls url.raw ps with
            | ok v =>
              obtain ⟨s, r⟩ := v
              exact ⟨fun e he => by
                  simp [handle_connect, hhost, hport, hsk, htls] at he,
                fun _ => ⟨.Proxies s r,
                  by simp [handle_connect, hhost, hport, hsk, htls]⟩,
                by simp [handle_connect, hhost, hport, hsk, htls]⟩
            | error e2 =>
              exact ⟨fun e he => by
                  simp [handle_connect, hhost, hport, hsk, htls],
                fun ho => by simp [handle_connect, hhost, hport, hsk, htls] at ho,
                by simp [handle_connect, hhost, hport, hsk, htls]⟩
  exact ⟨main.1, main.2.1, hdirect, hproxied, main.2.2⟩

/-- C10 witness: with a tunnel refusal the held connection Direct 9 9
survives unchanged; with the all-succeeding oracle and that same held
connection, a direct success overwrites the socket with the new connection
Direct 3 4 and a proxied success overwrites it with the new connection
Proxies 1 2, and the trace holds no close. -/
theorem handle_connect_frame_effect_witness :
    (handle_connect netTunnelRefused (some "127.0.0.1:1080")
        ⟨"wss://example.com/ws/x", some "example.com", some 443⟩
        ⟨some (.Direct 9 9)⟩).2.1 = ⟨some (.Direct 9 9)⟩ ∧
    (handle_connect netOk none
        ⟨"wss://example.com/ws/x", some "example.com", some 443⟩
        ⟨some (.Direct 9 9)⟩).2.1 = ⟨some (.Direct 3 4)⟩ ∧
    (handle_connect netOk (some "127.0.0.1:1080")
        ⟨"wss://example.com/ws/x", some "example.com", some 443⟩
        ⟨some (.Direct 9 9)⟩).2.1 = ⟨some (.Proxies 1 2)⟩ ∧
    (∀ ev ∈ (handle_connect netOk none
        ⟨"wss://example.com/ws/x", some "example.com", some 443⟩
        ⟨some (.Direct 9 9)⟩).2.2, ∀ c, ev ≠ .closeSocket c) :=
  ⟨(handle_connect_frame_effect netTunnelRefused (some "127.0.0.1:1080")
      ⟨"wss://example.com/ws/x", some "example.com", some 443⟩
      ⟨some (.Direct 9 9)⟩).1
      (.Msg ("Error creating proxy stream: " ++ "connection refused"))
      (by decide),
   (handle_connect_frame_effect netOk none
      ⟨"wss://example.com/ws/x", some "example.com", some 443⟩
      ⟨some (.Direct 9 9)⟩).2.2.1 3 4 rfl,
   (handle_connect_frame_effect netOk none
      ⟨"wss://example.com/ws/x", some "example.com", some 443⟩
      ⟨some (.Direct 9 9)⟩).2.2.2.1 "127.0.0.1:1080" "example.com" 443 0 1 2
      rfl rfl rfl rfl,
   (handle_connect_frame_effect netOk none
      ⟨"wss://example.com/ws/x", some "example.com", some 443⟩
      ⟨some (.Direct 9 9)⟩).2.2.2.2⟩

end Binance
